import Mathlib

/-!
Verification of the ai-trader-journal data services.

The repository consists of two small HTTP services built on an external
market-data provider:

* `src/services/options/options_service.py` — a FastAPI options-data service
  with an in-memory TTL cache (`CacheEntry`, `get_from_cache`, `set_cache`,
  `get_cache_ttl`), NaN-coercing numeric helpers (`safe_float`, `safe_int`),
  a retrying fetch wrapper (`get_ticker_with_retry`), and two endpoints
  (`get_expirations`, `get_options_chain`).
* `src/ticker_service.py` — a Flask quote service with ticker search
  (`search_tickers`), a quote endpoint (`get_ticker_data`) and a minimal
  options-chain endpoint (`get_options_chain`).

The development below is a shallow embedding of these functions.  Wall-clock
time (`time.time()`) is modelled as a rational number, Python floats read from
provider rows are modelled by `PVal` (a finite number, NaN, or a non-numeric
value that makes `float` / `np.isnan` raise), and JSON numbers delivered to a
client are modelled by `JsonNum` (a finite number or NaN).  The in-memory
cache dictionary is modelled as an association list with unique-key lookup
semantics.
-/

namespace TraderJournal

/-- Python `str.upper()`: uppercase every character. -/
def pyUpper (s : String) : String := ⟨s.data.map Char.toUpper⟩

/-- Character-list version of Python `str.startswith`. -/
def startsAux : List Char → List Char → Bool
  | _, [] => true
  | [], _ :: _ => false
  | c :: cs, d :: ds => c == d && startsAux cs ds

/-- Python `s.startswith(q)`. -/
def pyStartswith (s q : String) : Bool := startsAux s.data q.data

/-- An HTTP failure raised via `HTTPException(status_code, detail)` in the
FastAPI service (or an error response in the Flask service). -/
structure HTTPError where
  status : Nat
  detail : String
  deriving DecidableEq

/-- A raw value found in a provider row, as seen by the Python numeric
helpers: either a finite float, the float NaN, or a non-numeric value on
which `float(...)` raises `ValueError`/`TypeError` and `np.isnan(...)`
raises `TypeError`. -/
inductive PVal where
  | num (q : ℚ)
  | nan
  | nonNumeric
  deriving DecidableEq

/-- A JSON number delivered to the client: a finite number or NaN
(Python happily serialises float NaN). -/
inductive JsonNum where
  | num (q : ℚ)
  | nan
  deriving DecidableEq

/-- Multiplication of a JSON number by a rational constant: NaN is
absorbing, mirroring IEEE float multiplication by a finite constant. -/
def JsonNum.mulConst (x : JsonNum) (c : ℚ) : JsonNum :=
  match x with
  | .num q => .num (q * c)
  | .nan => .nan

-- ===========================================================================
-- Caching layer (options_service.py, lines 82-129)
-- ===========================================================================

/-- `CacheEntry.__init__` stores the payload and the absolute expiry instant
`time.time() + ttl_seconds`; here we keep the already-computed `expires_at`. -/
structure CacheEntry (α : Type) where
  data : α
  expires_at : ℚ
  deriving DecidableEq

/-- `CacheEntry.is_expired`: `time.time() > self.expires_at`
(strict comparison). -/
def CacheEntry.is_expired (now : ℚ) (e : CacheEntry α) : Bool :=
  decide (e.expires_at < now)

/-- The global `_cache` dictionary, modelled as an association list with
first-match lookup. -/
def Cache (α : Type) : Type := List (String × CacheEntry α)

/-- `get_cache_ttl()`: weekend (`weekday >= 5`) gives 86400 s; weekday local
hour with `9 <= hour < 16` gives 300 s; any other weekday hour gives
3600 s.  `weekday` and `hour` are the components of `datetime.now()` that
the function reads. -/
def get_cache_ttl (weekday hour : Nat) : Nat :=
  if 5 ≤ weekday then 86400
  else if 9 ≤ hour ∧ hour < 16 then 300
  else 3600

/-- `get_from_cache(key)`: if the key is present and the entry is not
expired, return its payload; if present and expired, delete the entry
(`del _cache[key]`) and return `None`; if absent return `None`.  The
returned pair is (result, cache after the call). -/
def get_from_cache (c : Cache α) (now : ℚ) (key : String) :
    Option α × Cache α :=
  match List.lookup key c with
  | some entry =>
      if entry.is_expired now then
        (none, List.filter (fun p => p.1 != key) c)
      else
        (some entry.data, c)
  | none => (none, c)

/-- `set_cache(key, data, ttl_seconds=None)`: when `ttl_seconds` is `None`
the market-aware `get_cache_ttl()` is used; the entry is stored with
`expires_at = now + ttl`, unconditionally overwriting any entry under the
same key. -/
def set_cache (c : Cache α) (now : ℚ) (weekday hour : Nat)
    (key : String) (data : α) (ttl_seconds : Option Nat) : Cache α :=
  let ttl := ttl_seconds.getD (get_cache_ttl weekday hour)
  (key, ⟨data, now + (ttl : ℚ)⟩) :: List.filter (fun p => p.1 != key) c

-- ===========================================================================
-- Numeric helpers (options_service.py, lines 135-151)
-- ===========================================================================

/-- `safe_float(value, default=0.0)`: returns `default` when the value is NaN
or when `np.isnan`/`float` raise, otherwise the float value itself. -/
def safe_float (v : PVal) (default : ℚ) : ℚ :=
  match v with
  | .num q => q
  | .nan => default
  | .nonNumeric => default

/-- Python `int()` truncation toward zero on a finite float. -/
def pyTrunc (q : ℚ) : ℤ :=
  if q < 0 then ⌈q⌉ else ⌊q⌋

/-- `safe_int(value, default=0)`: returns `default` when the value is NaN or
when `np.isnan`/`int` raise, otherwise the value truncated to an integer. -/
def safe_int (v : PVal) (default : ℤ) : ℤ :=
  match v with
  | .num q => pyTrunc q
  | .nan => default
  | .nonNumeric => default

-- ===========================================================================
-- Retrying fetch wrapper (options_service.py, lines 153-167)
-- ===========================================================================

/-- `get_ticker_with_retry(symbol, max_retries=3)`: the list holds the
outcome of each attempt (`true` = the provider call succeeds), one entry per
loop iteration, so its length is `max_retries`.  A success returns the
ticker (modelled as `()`); the final failed attempt raises
`HTTPException(404, "Invalid ticker symbol or API error: <symbol>")`.
With `max_retries = 0` the loop body never runs and Python falls through
returning `None`; that degenerate case is modelled as `.ok ()`. -/
def get_ticker_with_retry (symbol : String) : List Bool → Except HTTPError Unit
  | [] => .ok ()
  | [a] =>
      if a then .ok ()
      else .error ⟨404, "Invalid ticker symbol or API error: " ++ symbol⟩
  | a :: b :: rest =>
      if a then .ok () else get_ticker_with_retry symbol (b :: rest)

-- ===========================================================================
-- Options-service row shaping (options_service.py, lines 276-319)
-- ===========================================================================

/-- A provider row of an options-chain table (`chain.calls` / `chain.puts`),
with the columns that `get_options_chain` reads. -/
structure OptRow where
  strike : PVal
  bid : PVal
  ask : PVal
  lastPrice : PVal
  volume : PVal
  openInterest : PVal
  impliedVolatility : PVal
  inTheMoney : Bool
  contractSymbol : String
  deriving DecidableEq

/-- The `OptionContract` Pydantic model.  Numeric fields are kept as
`JsonNum` so that the (im)possibility of a NaN reaching the client is
expressible. -/
structure OptionContract where
  strike : JsonNum
  bid : JsonNum
  ask : JsonNum
  last : JsonNum
  volume : ℤ
  openInterest : ℤ
  impliedVolatility : JsonNum
  inTheMoney : Bool
  contractSymbol : String
  deriving DecidableEq

/-- The body of the per-row `OptionContract(...)` construction in
`get_options_chain`: every float field goes through `safe_float`,
`volume`/`openInterest` through `safe_int`, and implied volatility is
multiplied by 100. -/
def shape_opt_row (r : OptRow) : OptionContract :=
  { strike := .num (safe_float r.strike 0)
    bid := .num (safe_float r.bid 0)
    ask := .num (safe_float r.ask 0)
    last := .num (safe_float r.lastPrice 0)
    volume := safe_int r.volume 0
    openInterest := safe_int r.openInterest 0
    impliedVolatility := (JsonNum.num (safe_float r.impliedVolatility 0)).mulConst 100
    inTheMoney := r.inTheMoney
    contractSymbol := r.contractSymbol }

/-- The calls/puts processing loop of `get_options_chain`: for each row the
strike is read via `safe_float`; the row is skipped when `minStrike` is
given and `strike < minStrike`, or when `maxStrike` is given and
`strike > maxStrike`; otherwise the shaped contract is appended. -/
def process_rows (minStrike maxStrike : Option ℚ) : List OptRow → List OptionContract
  | [] => []
  | r :: rs =>
      let strike := safe_float r.strike 0
      if match minStrike with | some m => decide (strike < m) | none => false then
        process_rows minStrike maxStrike rs
      else if match maxStrike with | some m => decide (m < strike) | none => false then
        process_rows minStrike maxStrike rs
      else
        shape_opt_row r :: process_rows minStrike maxStrike rs

-- ===========================================================================
-- Options-service endpoints (options_service.py, lines 183-342)
-- ===========================================================================

/-- Outcome of the upstream provider for one expirations request: the
per-attempt outcomes of `get_ticker_with_retry` and the tuple returned by
`ticker.options`. -/
structure ExpProvider where
  attempts : List Bool
  expirations : List String

/-- The `OptionsExpirationResponse` model. -/
structure ExpResponse where
  ticker : String
  expirations : List String
  count : Nat
  cached : Bool
  deriving DecidableEq

/-- `get_expirations(ticker)`: uppercase the ticker, look up
`"expirations:<TICKER>"` in the cache (a hit is returned with
`cached = True`), otherwise fetch with retry, 404 when the provider lists
no expirations, and on success store the response with the fixed
`ttl_seconds=3600` and return it.  The pair is (HTTP outcome, cache after
the call). -/
def get_expirations (p : ExpProvider) (ticker : String)
    (cache : Cache ExpResponse) (now : ℚ) (weekday hour : Nat) :
    Except HTTPError ExpResponse × Cache ExpResponse :=
  let tu := pyUpper ticker
  let key := "expirations:" ++ tu
  match get_from_cache cache now key with
  | (some d, c') => (.ok { d with cached := true }, c')
  | (none, c') =>
      match get_ticker_with_retry tu p.attempts with
      | .error e => (.error e, c')
      | .ok () =>
          if p.expirations = [] then
            (.error ⟨404, "No options data available for " ++ tu⟩, c')
          else
            let resp : ExpResponse := ⟨tu, p.expirations, p.expirations.length, false⟩
            (.ok resp, set_cache c' now weekday hour key resp (some 3600))

/-- Outcome of the upstream provider for one chain request: per-attempt
fetch outcomes, the expiration list, the chain tables, and the close column
of `ticker.history(period="1d")` (`none` models the inner `try` failing). -/
structure ChainProvider where
  attempts : List Bool
  expirations : List String
  calls : List OptRow
  puts : List OptRow
  history_close : Option PVal

/-- The `OptionsChainResponse` model. -/
structure ChainResponse where
  ticker : String
  expiration : String
  underlyingPrice : ℚ
  calls : List OptionContract
  puts : List OptionContract
  cached : Bool
  fetchedAt : String
  deriving DecidableEq

/-- String used for a strike bound inside the cache key (Python interpolates
`None` or the float's repr; the exact rendering is irrelevant to the
claims). -/
def strikeKey : Option ℚ → String
  | none => "None"
  | some q => toString q

/-- `get_options_chain(ticker, expiration, minStrike, maxStrike)`: uppercase
the ticker, consult the cache under
`"chain:<TICKER>:<expiration>:<minStrike>:<maxStrike>"`, otherwise fetch
with retry, reject with a 400 `HTTPException` when the expiration is not in
the provider's list, shape both tables through the strike filter, take the
underlying price from the last daily close via `safe_float` (0.0 when the
history fetch fails), store the response with the market-aware TTL and
return it. `fetched_at` is the caller-supplied `datetime.now().isoformat()`
string. -/
def get_options_chain (p : ChainProvider) (ticker expiration : String)
    (minStrike maxStrike : Option ℚ) (cache : Cache ChainResponse)
    (now : ℚ) (weekday hour : Nat) (fetched_at : String) :
    Except HTTPError ChainResponse × Cache ChainResponse :=
  let tu := pyUpper ticker
  let key := "chain:" ++ tu ++ ":" ++ expiration ++ ":" ++
    strikeKey minStrike ++ ":" ++ strikeKey maxStrike
  match get_from_cache cache now key with
  | (some d, c') => (.ok { d with cached := true }, c')
  | (none, c') =>
      match get_ticker_with_retry tu p.attempts with
      | .error e => (.error e, c')
      | .ok () =>
          if expiration ∉ p.expirations then
            (.error ⟨400, "Invalid expiration date: " ++ expiration ++
              ". Use /api/options/expirations to get valid dates."⟩, c')
          else
            let underlying : ℚ :=
              match p.history_close with
              | some v => safe_float v 0
              | none => 0
            let resp : ChainResponse :=
              { ticker := tu
                expiration := expiration
                underlyingPrice := underlying
                calls := process_rows minStrike maxStrike p.calls
                puts := process_rows minStrike maxStrike p.puts
                cached := false
                fetchedAt := fetched_at }
            (.ok resp, set_cache c' now weekday hour key resp none)

-- ===========================================================================
-- Ticker service: search endpoint (ticker_service.py, lines 37-58)
-- ===========================================================================

/-- The static `COMMON_TICKERS` autocomplete list. -/
def COMMON_TICKERS : List String :=
  ["AAPL", "MSFT", "GOOGL", "AMZN", "TSLA", "META", "NVDA", "JPM", "V", "JNJ",
   "WMT", "PG", "UNH", "DIS", "MA", "HD", "BAC", "NFLX", "ADBE", "XOM",
   "SPY", "QQQ", "DIA", "IWM", "VTI", "VOO", "GLD", "SLV", "TLT", "VXX",
   "AMD", "INTC", "PYPL", "CRM", "ORCL", "CSCO", "PEP", "KO", "NKE", "MCD",
   "BA", "GS", "MS", "C", "WFC", "T", "VZ", "CVX", "LLY", "ABBV", "TSLL", "OKLO",
   "EOSE", "UEC", "EEM"]

/-- `search_tickers()`: read `q` (missing becomes the empty string),
uppercase it; an empty (falsy) query returns `[]`; otherwise keep the
common tickers starting with the query, in list order, and return the
first 10. -/
def search_tickers (q : Option String) : List String :=
  let query := pyUpper (q.getD "")
  if query = "" then []
  else (List.filter (fun t => pyStartswith t query) COMMON_TICKERS).take 10

-- ===========================================================================
-- Ticker service: quote endpoint derivations (ticker_service.py, lines 78-83)
-- ===========================================================================

/-- The floor of a rational number: `num / den` with Euclidean integer
division (the denominator is positive, so this is the floor). -/
def floorQ (x : ℚ) : ℤ := x.num / (x.den : ℤ)

/-- Rounding to the nearest integer with ties to even, the rule CPython's
`round` uses. -/
def round_half_even (x : ℚ) : ℤ :=
  let f := floorQ x
  let r := x - (f : ℚ)
  if r < 1/2 then f
  else if 1/2 < r then f + 1
  else if f % 2 = 0 then f else f + 1

/-- Python `round(x, 2)` on the exact (rational) value: round the scaled
value to the nearest integer with ties to even and scale back. -/
def round2 (q : ℚ) : ℚ := (round_half_even (q * 100) : ℚ) / 100

/-- The fields of the quote response derived in `get_ticker_data` from the
last daily close and `info.get('previousClose', current_price)`:
`currentPrice`, `previousClose`, `dayChange` and `dayChangePercent`. -/
structure QuoteDerived where
  currentPrice : ℚ
  previousClose : ℚ
  dayChange : ℚ
  dayChangePercent : ℚ
  deriving DecidableEq

/-- The derivation in `get_ticker_data`: `current_price` is the rounded
last close; `previous_close` is the rounded `info.previousClose`, defaulting
to `current_price` when the key is absent; `day_change` is their rounded
difference; `day_change_percent` is `round((day_change / previous_close) *
100, 2)` guarded by `previous_close != 0`, else 0. -/
def quote_derived (close : ℚ) (info_previousClose : Option ℚ) : QuoteDerived :=
  let current_price := round2 close
  let previous_close := round2 (info_previousClose.getD current_price)
  let day_change := round2 (current_price - previous_close)
  let day_change_percent :=
    if previous_close ≠ 0 then round2 (day_change / previous_close * 100) else 0
  ⟨current_price, previous_close, day_change, day_change_percent⟩

-- ===========================================================================
-- Ticker service: options-chain endpoint (ticker_service.py, lines 137-161)
-- ===========================================================================

/-- `float(value)`: the float itself (NaN included); raises on a
non-numeric value. -/
def raw_float : PVal → Except Unit JsonNum
  | .num q => .ok (.num q)
  | .nan => .ok .nan
  | .nonNumeric => .error ()

/-- `np.isnan(value)`: decides NaN-ness of a float; raises `TypeError` on a
non-numeric value. -/
def np_isnan : PVal → Except Unit Bool
  | .num _ => .ok false
  | .nan => .ok true
  | .nonNumeric => .error ()

/-- `int(value)`: truncation of a finite float; raises on NaN and on
non-numeric values. -/
def raw_int : PVal → Except Unit ℤ
  | .num q => .ok (pyTrunc q)
  | .nan => .error ()
  | .nonNumeric => .error ()

/-- A row of the minimal contract dictionaries built by the Flask
`get_options_chain`. -/
structure TSContract where
  strike : JsonNum
  bid : JsonNum
  ask : JsonNum
  volume : ℤ
  openInterest : ℤ
  impliedVolatility : JsonNum
  deriving DecidableEq

/-- The per-row dictionary construction in the Flask `get_options_chain`:
`strike`, `bid`, `ask` and `impliedVolatility` go through bare `float(...)`
(no NaN guard; IV is multiplied by 100), while `volume` and `openInterest`
are guarded by `np.isnan` and fall back to 0.  Any raised exception aborts
the whole request (caught as a 500 by the handler), modelled by `.error`. -/
def shape_ts_row (r : OptRow) : Except Unit TSContract := do
  let strike ← raw_float r.strike
  let bid ← raw_float r.bid
  let ask ← raw_float r.ask
  let volume ← do
    if (← np_isnan r.volume) then pure (0 : ℤ) else raw_int r.volume
  let openInterest ← do
    if (← np_isnan r.openInterest) then pure (0 : ℤ) else raw_int r.openInterest
  let iv ← raw_float r.impliedVolatility
  return ⟨strike, bid, ask, volume, openInterest, iv.mulConst 100⟩

-- ===========================================================================
-- Helper lemmas
-- ===========================================================================

/-- Looking a key up after filtering out every pair with that key yields
nothing. -/
theorem lookup_filter_ne {β : Type} (c : List (String × β)) (k : String) :
    List.lookup k (List.filter (fun p => p.1 != k) c) = none := by
  induction c with
  | nil => rfl
  | cons p rest ih =>
      obtain ⟨a, b⟩ := p
      rw [List.filter_cons]
      by_cases h : a = k
      · simpa [h] using ih
      · have hb : ((a, b).1 != k) = true := by simp [h]
        rw [hb, if_pos rfl, List.lookup]
        have hak : (k == a) = false := by
          simp [beq_eq_false_iff_ne]
          exact fun hh => h hh.symm
        rw [hak]
        exact ih

-- ===========================================================================
-- Claims
-- ===========================================================================

/-- C1 (amended).  For a stored entry, `get_from_cache` returns the payload
exactly when `now ≤ expires_at` — the payload is still returned at the
boundary instant `now = expires_at`, because `is_expired` uses the strict
comparison `time.time() > expires_at` — and strictly after `expires_at` the
entry is removed from the mapping as a side effect. -/
theorem get_from_cache_le_expiry {α : Type} (c : Cache α) (now : ℚ)
    (k : String) (e : CacheEntry α) (h : List.lookup k c = some e) :
    ((get_from_cache c now k).1 = some e.data ↔ now ≤ e.expires_at) ∧
    (e.expires_at < now → List.lookup k (get_from_cache c now k).2 = none) := by
  unfold get_from_cache
  rw [h]
  by_cases hexp : e.expires_at < now
  · simp [CacheEntry.is_expired, hexp, lookup_filter_ne, not_le.mpr hexp]
  · simp [CacheEntry.is_expired, hexp, not_lt.mp hexp]

/-- C1 witness: a concrete entry under key `"k"` expiring at instant 10,
read at instant 5. -/
theorem get_from_cache_le_expiry_witness :
    List.lookup "k" ([("k", ⟨(42:ℤ), (10:ℚ)⟩)] : Cache ℤ) = some ⟨42, 10⟩ ∧
    ((get_from_cache [("k", ⟨(42:ℤ), (10:ℚ)⟩)] 5 "k").1 = some (42:ℤ) ↔ (5:ℚ) ≤ 10) :=
  ⟨by decide, (get_from_cache_le_expiry [("k", ⟨(42:ℤ), (10:ℚ)⟩)] 5 "k" ⟨42, 10⟩ (by decide)).1⟩

/-- C1 counterexample.  At the boundary instant `now = expires_at` the
lookup still returns the stored payload, not absent: the claim's boundary
clause is false on the code. -/
theorem get_from_cache_at_expiry_returns_payload :
    (get_from_cache [("k", ⟨(42:ℤ), (10:ℚ)⟩)] 10 "k").1 = some 42 ∧ ¬ ((10:ℚ) < 10) :=
  ⟨by decide, by decide⟩

/-- C4.  `get_cache_ttl` returns 86400 whenever the local weekday is
Saturday or Sunday (`weekday ≥ 5`) regardless of hour, 300 on a weekday
whose hour lies in `[9, 16)`, and 3600 on a weekday whose hour lies outside
that range. -/
theorem get_cache_ttl_cases (weekday hour : Nat) :
    (5 ≤ weekday → get_cache_ttl weekday hour = 86400) ∧
    (weekday < 5 → 9 ≤ hour → hour < 16 → get_cache_ttl weekday hour = 300) ∧
    (weekday < 5 → (hour < 9 ∨ 16 ≤ hour) → get_cache_ttl weekday hour = 3600) := by
  refine ⟨fun hw => ?_, fun hw h9 h16 => ?_, fun hw hout => ?_⟩
  · simp [get_cache_ttl, hw]
  · simp [get_cache_ttl, Nat.not_le.mpr hw, h9, h16]
  · rcases hout with h | h
    · simp [get_cache_ttl, Nat.not_le.mpr hw, Nat.not_le.mpr h]
    · simp [get_cache_ttl, Nat.not_le.mpr hw, Nat.not_lt.mpr h]

/-- C4 witness: Sunday at 03:00 gives the weekend TTL, Tuesday at 10:00 the
market-hours TTL, Tuesday at 20:00 the after-hours TTL. -/
theorem get_cache_ttl_cases_witness :
    get_cache_ttl 6 3 = 86400 ∧ get_cache_ttl 1 10 = 300 ∧ get_cache_ttl 1 20 = 3600 :=
  ⟨(get_cache_ttl_cases 6 3).1 (by decide),
   (get_cache_ttl_cases 1 10).2.1 (by decide) (by decide) (by decide),
   (get_cache_ttl_cases 1 20).2.2 (by decide) (Or.inr (by decide))⟩

/-- C3 (amended).  When every fetch attempt fails and the retries are
exhausted, `get_ticker_with_retry` raises an `HTTPException` with status
404 — not 500 — whose message echoes the offending symbol. -/
theorem get_ticker_with_retry_exhausted_404 (symbol : String)
    (attempts : List Bool) (hne : attempts ≠ [])
    (hall : ∀ a ∈ attempts, a = false) :
    get_ticker_with_retry symbol attempts =
      .error ⟨404, "Invalid ticker symbol or API error: " ++ symbol⟩ := by
  induction attempts with
  | nil => exact absurd rfl hne
  | cons a rest ih =>
      have ha : a = false := hall a (by simp)
      cases rest with
      | nil => simp [get_ticker_with_retry, ha]
      | cons b rest' =>
          rw [get_ticker_with_retry, ha, if_neg (by simp)]
          exact ih (by simp) (fun x hx => hall x (by simp [hx]))

/-- C3 witness: three failed attempts for the symbol `"FAKE"`. -/
theorem get_ticker_with_retry_exhausted_404_witness :
    get_ticker_with_retry "FAKE" [false, false, false] =
      .error ⟨404, "Invalid ticker symbol or API error: FAKE"⟩ :=
  get_ticker_with_retry_exhausted_404 "FAKE" [false, false, false]
    (by decide) (by decide)

/-- C3 counterexample.  After three failed attempts the raised failure
carries status 404, not the HTTP 500 the claim asserts. -/
theorem get_ticker_with_retry_not_500 :
    get_ticker_with_retry "FAKE" [false, false, false] =
      .error ⟨404, "Invalid ticker symbol or API error: FAKE"⟩ ∧
    (404 : Nat) ≠ 500 :=
  ⟨by rfl, by decide⟩

/-- C9.  A missing or empty `q` parameter makes the search endpoint return
the empty array rather than the full static list. -/
theorem search_tickers_empty_query :
    search_tickers none = [] ∧ search_tickers (some "") = [] ∧
    COMMON_TICKERS ≠ [] :=
  ⟨by decide, by decide, by decide⟩

/-- Every symbol in the static autocomplete list is already uppercase. -/
theorem common_tickers_upper : ∀ s ∈ COMMON_TICKERS, pyUpper s = s := by decide

/-- Uppercasing preserves non-emptiness. -/
theorem pyUpper_ne_empty (s : String) (h : s ≠ "") : pyUpper s ≠ "" := by
  intro hc
  apply h
  have hd : (pyUpper s).data = [] := by rw [hc]
  simp [pyUpper] at hd
  exact String.ext hd

/-- C7.  For a non-empty query `q`, the search endpoint returns exactly the
members of the static list that start with the uppercased query, in the
static list's order, truncated to at most 10 results; every returned symbol
is drawn from the static list (order preserved, via the sublist fact) and
is uppercase. -/
theorem search_tickers_matches (q : String) (hq : q ≠ "") :
    search_tickers (some q) =
      (List.filter (fun t => pyStartswith t (pyUpper q)) COMMON_TICKERS).take 10 ∧
    List.Sublist (search_tickers (some q)) COMMON_TICKERS ∧
    (search_tickers (some q)).length ≤ 10 ∧
    (∀ s ∈ search_tickers (some q), pyUpper s = s) := by
  have hu : pyUpper q ≠ "" := pyUpper_ne_empty q hq
  have heq : search_tickers (some q) =
      (List.filter (fun t => pyStartswith t (pyUpper q)) COMMON_TICKERS).take 10 := by
    simp [search_tickers, hu]
  have hsub : List.Sublist (search_tickers (some q)) COMMON_TICKERS := by
    rw [heq]
    exact (List.take_sublist _ _).trans (List.filter_sublist _)
  refine ⟨heq, hsub, ?_, ?_⟩
  · rw [heq]; exact List.length_take_le _ _
  · intro s hs
    exact common_tickers_upper s (hsub.subset hs)

/-- C7 witness: the concrete query `"aa"` (which uppercases to `"AA"` and
matches exactly `["AAPL"]`). -/
theorem search_tickers_matches_witness :
    search_tickers (some "aa") =
      (List.filter (fun t => pyStartswith t (pyUpper "aa")) COMMON_TICKERS).take 10 ∧
    search_tickers (some "aa") = ["AAPL"] :=
  ⟨(search_tickers_matches "aa" (by decide)).1, by decide⟩

/-- A chain row with the given strike and neutral values elsewhere, used to
instantiate the strike-filter example from the claim. -/
def exRow (s : ℚ) : OptRow :=
  ⟨.num s, .num 0, .num 0, .num 0, .num 0, .num 0, .num 0, false, ""⟩

/-- C5.  The chain endpoint's row loop keeps a row exactly when `minStrike`
is absent or `strike ≥ minStrike`, and `maxStrike` is absent or
`strike ≤ maxStrike` — both bounds inclusive.  The same `process_rows` loop
is run for the calls table and for the puts table independently
(`get_options_chain` applies it to `p.calls` and to `p.puts`).  The second
conjunct is the claim's example: of strikes `[100, 110, 120]` with
`minStrike = 105` and `maxStrike = 115`, only the 110 row survives. -/
theorem process_rows_strike_filter (minS maxS : Option ℚ) (rows : List OptRow) :
    (process_rows minS maxS rows =
      (List.filter (fun r =>
        (minS.all fun m => decide (m ≤ safe_float r.strike 0)) &&
        (maxS.all fun M => decide (safe_float r.strike 0 ≤ M))) rows).map shape_opt_row) ∧
    (process_rows (some 105) (some 115)
      [exRow 100, exRow 110, exRow 120]).map OptionContract.strike = [JsonNum.num 110] := by
  refine ⟨?_, by decide⟩
  induction rows with
  | nil => rfl
  | cons r rs ih =>
      rw [List.filter_cons]
      rcases minS with _ | m <;> rcases maxS with _ | M
      · simp [process_rows, ih]
      · by_cases h2 : safe_float r.strike 0 ≤ M
        · simp [process_rows, h2, not_lt.mpr h2, ih]
        · simp [process_rows, h2, not_le.mp h2, ih]
      · by_cases h1 : m ≤ safe_float r.strike 0
        · simp [process_rows, h1, not_lt.mpr h1, ih]
        · simp [process_rows, h1, not_le.mp h1, ih]
      · by_cases h1 : m ≤ safe_float r.strike 0
        · by_cases h2 : safe_float r.strike 0 ≤ M
          · simp [process_rows, h1, h2, not_lt.mpr h1, not_lt.mpr h2, ih]
          · simp [process_rows, h1, h2, not_lt.mpr h1, not_le.mp h2, ih]
        · simp [process_rows, h1, not_le.mp h1, ih]

/-- A provider row whose `bid` column is NaN and whose other columns are
ordinary numbers. -/
def nanBidRow : OptRow :=
  ⟨.num 100, .nan, .num 1, .num 1, .num 5, .num 3, .num 1, false, ""⟩

/-- C2 counterexample.  In the Flask options-chain endpoint
(`ticker_service.get_options_chain`), `strike`, `bid`, `ask` and
`impliedVolatility` are converted with a bare `float(...)` and are not
NaN-guarded: a row whose `bid` is NaN shapes successfully (no exception,
hence a 200 response) with a NaN `bid` delivered to the client, refuting
the claim that every numeric field of every successful response is
NaN-free. -/
theorem shape_ts_row_nan_bid :
    (shape_ts_row nanBidRow).toOption.map TSContract.bid = some JsonNum.nan := by
  rfl

/-- C2 (amended).  In the FastAPI options service every numeric field of a
shaped `OptionContract` goes through `safe_float`/`safe_int` and is never
NaN; but in the Flask ticker service's options-chain endpoint only
`volume` and `openInterest` are NaN-guarded, and `strike`, `bid`, `ask` and
`impliedVolatility` may surface NaN from a provider row (see the
counterexample). -/
theorem shape_opt_row_no_nan (r : OptRow) :
    (shape_opt_row r).strike ≠ JsonNum.nan ∧
    (shape_opt_row r).bid ≠ JsonNum.nan ∧
    (shape_opt_row r).ask ≠ JsonNum.nan ∧
    (shape_opt_row r).last ≠ JsonNum.nan ∧
    (shape_opt_row r).impliedVolatility ≠ JsonNum.nan := by
  refine ⟨?_, ?_, ?_, ?_, ?_⟩ <;> simp [shape_opt_row, JsonNum.mulConst]

/-- C6.  On a cache miss, when the ticker resolves successfully but the
requested expiration is not a member of the provider's reported list, the
chain request fails with status 400 (not 404 and not 500) and the error
message echoes the offending expiration. -/
theorem get_options_chain_invalid_expiration_400
    (p : ChainProvider) (ticker expiration : String) (minS maxS : Option ℚ)
    (cache : Cache ChainResponse) (now : ℚ) (weekday hour : Nat) (fa : String)
    (hmiss : (get_from_cache cache now ("chain:" ++ pyUpper ticker ++ ":" ++
      expiration ++ ":" ++ strikeKey minS ++ ":" ++ strikeKey maxS)).1 = none)
    (hok : get_ticker_with_retry (pyUpper ticker) p.attempts = .ok ())
    (hexp : expiration ∉ p.expirations) :
    (get_options_chain p ticker expiration minS maxS cache now weekday hour fa).1 =
      .error ⟨400, "Invalid expiration date: " ++ expiration ++
        ". Use /api/options/expirations to get valid dates."⟩ := by
  rcases hcgc : get_from_cache cache now ("chain:" ++ pyUpper ticker ++ ":" ++
      expiration ++ ":" ++ strikeKey minS ++ ":" ++ strikeKey maxS) with ⟨o, c'⟩
  rw [hcgc] at hmiss
  simp only at hmiss
  subst hmiss
  simp only [get_options_chain, hcgc, hok, if_pos hexp]

/-- C6 witness: ticker `"aapl"` resolving on the first attempt, requested
expiration `"2025-01-01"` absent from the provider's list. -/
theorem get_options_chain_invalid_expiration_400_witness :
    (get_options_chain ⟨[true], ["2025-11-21"], [], [], none⟩ "aapl" "2025-01-01"
        none none [] 0 0 0 "t").1 =
      .error ⟨400, "Invalid expiration date: " ++ "2025-01-01" ++
        ". Use /api/options/expirations to get valid dates."⟩ :=
  get_options_chain_invalid_expiration_400 ⟨[true], ["2025-11-21"], [], [], none⟩
    "aapl" "2025-01-01" none none [] 0 0 0 "t" (by rfl) (by rfl) (by decide)

/-- C8.  On a cache miss with a resolving ticker and a non-empty expiration
list, `get_expirations` stores its cache entry with the fixed
`ttl_seconds=3600` — the entry expires at `now + 3600` — at every instant,
whatever the local weekday and hour, bypassing the market-aware TTL
selection entirely; in particular on a weekend (`weekday ≥ 5`), where that
selection would have chosen 86400, the entry still expires after one
hour. -/
theorem get_expirations_fixed_ttl
    (p : ExpProvider) (ticker : String) (cache : Cache ExpResponse)
    (now : ℚ) (weekday hour : Nat)
    (hmiss : (get_from_cache cache now ("expirations:" ++ pyUpper ticker)).1 = none)
    (hok : get_ticker_with_retry (pyUpper ticker) p.attempts = .ok ())
    (hne : p.expirations ≠ []) :
    List.lookup ("expirations:" ++ pyUpper ticker)
        (get_expirations p ticker cache now weekday hour).2 =
      some ⟨⟨pyUpper ticker, p.expirations, p.expirations.length, false⟩,
        now + ((3600 : Nat) : ℚ)⟩ ∧
    (5 ≤ weekday → get_cache_ttl weekday hour = 86400) := by
  constructor
  · rcases hcgc : get_from_cache cache now ("expirations:" ++ pyUpper ticker) with ⟨o, c'⟩
    rw [hcgc] at hmiss
    simp only at hmiss
    subst hmiss
    simp only [get_expirations, hcgc, hok, if_neg hne, set_cache, Option.getD_some,
      List.lookup]
    rw [beq_self_eq_true]
  · intro hw
    simp [get_cache_ttl, hw]

/-- C8 witness: ticker `"aapl"`, one successful attempt, a single listed
expiration, on a Sunday (`weekday = 6`) at 03:00. -/
theorem get_expirations_fixed_ttl_witness :
    List.lookup ("expirations:" ++ pyUpper "aapl")
        (get_expirations ⟨[true], ["2025-11-21"]⟩ "aapl" [] 0 6 3).2 =
      some ⟨⟨pyUpper "aapl", ["2025-11-21"], (["2025-11-21"] : List String).length, false⟩,
        0 + ((3600 : Nat) : ℚ)⟩ ∧
    (5 ≤ 6 → get_cache_ttl 6 3 = 86400) :=
  get_expirations_fixed_ttl ⟨[true], ["2025-11-21"]⟩ "aapl" [] 0 6 3
    (by rfl) (by rfl) (by decide)

/-- Rounding with ties to even is the identity on integers. -/
theorem round_half_even_intCast (n : ℤ) : round_half_even (n : ℚ) = n := by
  have hf : floorQ (n : ℚ) = n := by
    simp [floorQ, Rat.num_intCast, Rat.den_intCast]
  simp only [round_half_even, hf]
  have h0 : (n : ℚ) - (n : ℚ) = 0 := sub_self _
  rw [h0]
  norm_num

/-- `round2` is the identity on integer hundredths. -/
theorem round2_int_div_100 (k : ℤ) : round2 ((k : ℚ)/100) = (k : ℚ)/100 := by
  have h : (k : ℚ)/100 * 100 = (k : ℚ) := by
    field_simp
  rw [round2, h, round_half_even_intCast]

/-- A difference of two already-rounded values is unchanged by a further
`round(_, 2)`. -/
theorem round2_sub (a b : ℚ) :
    round2 (round2 a - round2 b) = round2 a - round2 b := by
  have ha : round2 a = ((round_half_even (a * 100) : ℤ) : ℚ)/100 := rfl
  have hb : round2 b = ((round_half_even (b * 100) : ℤ) : ℚ)/100 := rfl
  rw [ha, hb]
  have hd : ((round_half_even (a * 100) : ℤ) : ℚ)/100 -
      ((round_half_even (b * 100) : ℤ) : ℚ)/100 =
      ((round_half_even (a * 100) - round_half_even (b * 100) : ℤ) : ℚ)/100 := by
    push_cast
    ring
  rw [hd, round2_int_div_100]

/-- C10.  The derived `dayChangePercent` never divides by zero: when the
(rounded) `previousClose` is 0 the field is 0, and otherwise it equals
`round((currentPrice - previousClose) / previousClose * 100, 2)` — the
intermediate `round(current_price - previous_close, 2)` in the code is the
identity because both operands are already integer hundredths. -/
theorem quote_day_change_percent (close : ℚ) (prev : Option ℚ) :
    (quote_derived close prev).dayChangePercent =
      if (quote_derived close prev).previousClose = 0 then 0
      else round2 (((quote_derived close prev).currentPrice -
                    (quote_derived close prev).previousClose) /
                   (quote_derived close prev).previousClose * 100) := by
  simp only [quote_derived]
  rw [round2_sub close (prev.getD (round2 close))]
  by_cases h : round2 (prev.getD (round2 close)) = 0
  · simp [h]
  · simp [h]

end TraderJournal
